import Mathlib

/-!
Shallow embedding of the volumetric `Cube` field model of the
charges-tools repository (`src/chargetools/grids.py`,
`src/chargetools/entities.py`, `src/chargetools/utils/utils.py`), together
with theorems settling the frozen claims about it.

Python floats are modelled by exact rationals `ℚ` for the parsing,
serialization and arithmetic claims, and by real numbers `ℝ` for the
Euclidean-distance and Coulomb-potential claims (scipy's `cdist` takes a
square root).  Python's dynamic typing matters for several claims (the
arithmetic operators of `grids.py` pass their arguments to `Cube.__init__`
shifted by one position, so ill-typed `Cube` instances actually arise), so
runtime values are modelled by the inductive type `Obj` below, with one
constructor per kind of object that flows through the code under study.
-/

deriving instance DecidableEq for Except

namespace ChargeTools

/-- Python exception kinds raised (or named by the spec) for the code under
study.  `attributeError` carries the optional message string.
`shapeMismatchError` is modelled from the spec: spec section 7 names a
`ShapeMismatchError` kind for shape-mismatched field arithmetic, but no such
exception class exists anywhere in the source (the repository's
`chargetools/exceptions.py` module is absent from the source tree, and
`grids.py` raises the builtin `AttributeError` directly); the constructor
exists only so that statements about the spec's named error kind can be
written down. -/
inductive PyErr where
  | typeError : PyErr
  | valueError : PyErr
  | attributeError (msg : Option String) : PyErr
  | fileExistsError : PyErr
  | shapeMismatchError (msg : Option String) : PyErr
  deriving DecidableEq, Repr

/-- A numpy `ndarray` with element type `α`: a shape together with the
row-major (C-order) flat list of entries. -/
structure NpArr (α : Type) where
  shape : List ℕ
  data : List α
  deriving DecidableEq, Repr

/-- `entities.Atom`: label, atomic number, net charge and optional position
(`grids.py` and the claims only ever read these four fields; the derived
`symbol` field, which `Atom.__init__` fills from the external
`periodictable` package, is observed by no claim and is omitted).  Cube
files carry 3-D positions, so the position is a coordinate triple. -/
structure Atom (α : Type) where
  label : ℤ
  atomic_number : ℤ
  charge : α
  position : Option (α × α × α)
  deriving DecidableEq, Repr

instance {α : Type} [Inhabited α] : Inhabited (Atom α) :=
  ⟨⟨0, 0, default, none⟩⟩

/-- `entities.Molecule`: an ordered list of atoms plus a net charge and an
optional name (the bond list is observed by no claim and is omitted). -/
structure Molecule (α : Type) where
  atoms : List (Atom α)
  charge : α
  name : Option String
  deriving DecidableEq, Repr

/-- A Python runtime value of the kinds that flow through `grids.py`.
`num` covers both `int` and `float` scalars (the `isinstance` dispatch in
the arithmetic operators treats them identically); `arr` is a float
`ndarray`; `intArr` an integer `ndarray` (the `n_voxels` array); `axesDict`
the `OrderedDict` of axis name to 1-D coordinate array built in
`from_cube_file`; `cube` a `grids.Cube` instance, with its eight `__init__`
fields in declaration order: `from_file`, `field_type`, `values`, `axes`,
`molecule`, `origins`, `unit_vectors`, `n_voxels`. -/
inductive Obj (α : Type) where
  | none : Obj α
  | num (x : α) : Obj α
  | str (s : String) : Obj α
  | arr (a : NpArr α) : Obj α
  | intArr (l : List ℤ) : Obj α
  | axesDict (d : List (String × List α)) : Obj α
  | mol (m : Molecule α) : Obj α
  | cube (from_file field_type values axes molecule origins unit_vectors
      n_voxels : Obj α) : Obj α
  deriving DecidableEq, Repr

namespace Obj

variable {α : Type}

/-- Attribute access `self.values` on a `Cube` instance. -/
def valuesField : Obj α → Obj α
  | .cube _ _ v _ _ _ _ _ => v
  | _ => .none

/-- Attribute access `self.from_file`. -/
def fromFileField : Obj α → Obj α
  | .cube f _ _ _ _ _ _ _ => f
  | _ => .none

/-- Attribute access `self.field_type`. -/
def fieldTypeField : Obj α → Obj α
  | .cube _ t _ _ _ _ _ _ => t
  | _ => .none

/-- Attribute access `self.axes`. -/
def axesField : Obj α → Obj α
  | .cube _ _ _ a _ _ _ _ => a
  | _ => .none

/-- Attribute access `self.molecule`. -/
def moleculeField : Obj α → Obj α
  | .cube _ _ _ _ m _ _ _ => m
  | _ => .none

/-- Attribute access `self.origins`. -/
def originsField : Obj α → Obj α
  | .cube _ _ _ _ _ o _ _ => o
  | _ => .none

/-- Attribute access `self.unit_vectors`. -/
def unitVectorsField : Obj α → Obj α
  | .cube _ _ _ _ _ _ u _ => u
  | _ => .none

/-- Attribute access `self.n_voxels`. -/
def nVoxelsField : Obj α → Obj α
  | .cube _ _ _ _ _ _ _ n => n
  | _ => .none

end Obj

namespace Cube

variable {α : Type}

/-- `Cube.__init__(self, file_name, field_type, values, axes, molecule,
origins=None, unit_vectors=None, n_voxels=None)` (grids.py lines 20-28),
applied to exactly seven positional arguments, the way the arithmetic
operators `__add__`, `__mul__`, `__truediv__` and `__pow__` call it:
`Cube(self.from_file, <new values>, *self._grid_args)` passes seven
positionals, so `field_type` receives the new value array, `values`
receives the axes dict, and so on, with `n_voxels` left at its default
`None`.  The parameters here are named `a1..a7` after their positions to
make the positional binding explicit. -/
def init7 (a1 a2 a3 a4 a5 a6 a7 : Obj α) : Obj α :=
  .cube a1 a2 a3 a4 a5 a6 a7 .none

/-- `Cube.__init__` applied to all eight positional arguments, as done by
`from_cube_file` and `assign_new_values_to`. -/
def init8 (a1 a2 a3 a4 a5 a6 a7 a8 : Obj α) : Obj α :=
  .cube a1 a2 a3 a4 a5 a6 a7 a8

/-- `Cube.assign_new_values_to(original_cube, new_values)` (grids.py lines
149-166): `cls(original_cube.from_file, original_cube.field_type,
new_values, *args)` with `args = (axes, molecule, origins, unit_vectors,
n_voxels)` — eight positionals, correctly aligned.  `new_values` is passed
through as an arbitrary object, exactly as in Python. -/
def assign_new_values_to (original_cube new_values : Obj α) : Obj α :=
  init8 original_cube.fromFileField original_cube.fieldTypeField new_values
    original_cube.axesField original_cube.moleculeField
    original_cube.originsField original_cube.unitVectorsField
    original_cube.nVoxelsField

/-- `self._grid_args` (grids.py lines 274-277): the tuple
`(axes, molecule, origins, unit_vectors, n_voxels)`. -/
def grid_args (self : Obj α) : Obj α × Obj α × Obj α × Obj α × Obj α :=
  (self.axesField, self.moleculeField, self.originsField,
   self.unitVectorsField, self.nVoxelsField)

/-- `Cube.__add__` (grids.py lines 282-291).  `args = self._grid_args`;
for a scalar or ndarray operand the result is
`Cube(self.from_file, self.values + other, *args)` — seven positionals —
and for a `Cube` operand, after the shape check, it is
`Cube(self.from_file, self.values + other.values, *args)`.  A `self` whose
`values` attribute is not an ndarray would make `self.values + other`
raise a `TypeError` in Python; that case is mapped to `.typeError`.  Array
operands are combined entrywise in index order (numpy semantics for
equal-shaped arrays; no claim exercises broadcasting of mismatched raw
arrays); the same conventions hold in the other four operators below. -/
def add [Add α] (self other : Obj α) : Except PyErr (Obj α) :=
  match self with
  | .cube ff ft (.arr va) ax mo og uv nv =>
    let args : Obj α × Obj α × Obj α × Obj α × Obj α :=
      grid_args (.cube ff ft (.arr va) ax mo og uv nv)
    match other with
    | .num x =>
        .ok (init7 ff (.arr ⟨va.shape, va.data.map (· + x)⟩)
          args.1 args.2.1 args.2.2.1 args.2.2.2.1 args.2.2.2.2)
    | .arr b =>
        .ok (init7 ff (.arr ⟨va.shape, va.data.zipWith (· + ·) b.data⟩)
          args.1 args.2.1 args.2.2.1 args.2.2.2.1 args.2.2.2.2)
    | .cube _ _ (.arr vb) _ _ _ _ _ =>
        if va.shape ≠ vb.shape then
          .error (.attributeError
            (some "Cube files must have the same coordinates to be summed."))
        else
          .ok (init7 ff (.arr ⟨va.shape, va.data.zipWith (· + ·) vb.data⟩)
            args.1 args.2.1 args.2.2.1 args.2.2.2.1 args.2.2.2.2)
    | _ => .error (.attributeError Option.none)
  | _ => .error .typeError

/-- `Cube.__sub__` (grids.py lines 293-301): unlike the other operators it
builds its result through `assign_new_values_to`, so the fields are
correctly aligned. -/
def sub [Sub α] (self other : Obj α) : Except PyErr (Obj α) :=
  match self with
  | .cube ff ft (.arr va) ax mo og uv nv =>
    let s : Obj α := .cube ff ft (.arr va) ax mo og uv nv
    match other with
    | .num x =>
        .ok (assign_new_values_to s (.arr ⟨va.shape, va.data.map (· - x)⟩))
    | .arr b =>
        .ok (assign_new_values_to s
          (.arr ⟨va.shape, va.data.zipWith (· - ·) b.data⟩))
    | .cube _ _ (.arr vb) _ _ _ _ _ =>
        if va.shape ≠ vb.shape then
          .error (.attributeError
            (some "Cube files must have the same coordinates to be summed."))
        else
          .ok (assign_new_values_to s
            (.arr ⟨va.shape, va.data.zipWith (· - ·) vb.data⟩))
    | _ => .error (.attributeError Option.none)
  | _ => .error .typeError

/-- `Cube.__mul__` (grids.py lines 303-312): same shifted seven-positional
constructor call as `__add__`, with `*` as the elementwise operation. -/
def mul [Mul α] (self other : Obj α) : Except PyErr (Obj α) :=
  match self with
  | .cube ff ft (.arr va) ax mo og uv nv =>
    let args : Obj α × Obj α × Obj α × Obj α × Obj α :=
      grid_args (.cube ff ft (.arr va) ax mo og uv nv)
    match other with
    | .num x =>
        .ok (init7 ff (.arr ⟨va.shape, va.data.map (· * x)⟩)
          args.1 args.2.1 args.2.2.1 args.2.2.2.1 args.2.2.2.2)
    | .arr b =>
        .ok (init7 ff (.arr ⟨va.shape, va.data.zipWith (· * ·) b.data⟩)
          args.1 args.2.1 args.2.2.1 args.2.2.2.1 args.2.2.2.2)
    | .cube _ _ (.arr vb) _ _ _ _ _ =>
        if va.shape ≠ vb.shape then
          .error (.attributeError
            (some "Cube files must have the same coordinates to be summed."))
        else
          .ok (init7 ff (.arr ⟨va.shape, va.data.zipWith (· * ·) vb.data⟩)
            args.1 args.2.1 args.2.2.1 args.2.2.2.1 args.2.2.2.2)
    | _ => .error (.attributeError Option.none)
  | _ => .error .typeError

/-- `Cube.__truediv__` (grids.py lines 314-323).  Its body is letter for
letter the body of `__mul__`: every branch multiplies (`self.values *
other`, `self.values * other.values`); no division occurs. -/
def truediv [Mul α] (self other : Obj α) : Except PyErr (Obj α) :=
  match self with
  | .cube ff ft (.arr va) ax mo og uv nv =>
    let args : Obj α × Obj α × Obj α × Obj α × Obj α :=
      grid_args (.cube ff ft (.arr va) ax mo og uv nv)
    match other with
    | .num x =>
        .ok (init7 ff (.arr ⟨va.shape, va.data.map (· * x)⟩)
          args.1 args.2.1 args.2.2.1 args.2.2.2.1 args.2.2.2.2)
    | .arr b =>
        .ok (init7 ff (.arr ⟨va.shape, va.data.zipWith (· * ·) b.data⟩)
          args.1 args.2.1 args.2.2.1 args.2.2.2.1 args.2.2.2.2)
    | .cube _ _ (.arr vb) _ _ _ _ _ =>
        if va.shape ≠ vb.shape then
          .error (.attributeError
            (some "Cube files must have the same coordinates to be summed."))
        else
          .ok (init7 ff (.arr ⟨va.shape, va.data.zipWith (· * ·) vb.data⟩)
            args.1 args.2.1 args.2.2.1 args.2.2.2.1 args.2.2.2.2)
    | _ => .error (.attributeError Option.none)
  | _ => .error .typeError

/-- `Cube.__pow__` (grids.py lines 325-334): the same shifted constructor
call with `**` as the elementwise operation.  Python's binary `**` on
floats is passed in as the function `powf` (the claims never evaluate it
elementwise, only its shape-mismatch branch). -/
def pow (powf : α → α → α) (self power : Obj α) : Except PyErr (Obj α) :=
  match self with
  | .cube ff ft (.arr va) ax mo og uv nv =>
    let args : Obj α × Obj α × Obj α × Obj α × Obj α :=
      grid_args (.cube ff ft (.arr va) ax mo og uv nv)
    match power with
    | .num x =>
        .ok (init7 ff (.arr ⟨va.shape, va.data.map (powf · x)⟩)
          args.1 args.2.1 args.2.2.1 args.2.2.2.1 args.2.2.2.2)
    | .arr b =>
        .ok (init7 ff (.arr ⟨va.shape, va.data.zipWith powf b.data⟩)
          args.1 args.2.1 args.2.2.1 args.2.2.2.1 args.2.2.2.2)
    | .cube _ _ (.arr vb) _ _ _ _ _ =>
        if va.shape ≠ vb.shape then
          .error (.attributeError
            (some "Cube files must have the same coordinates to be summed."))
        else
          .ok (init7 ff (.arr ⟨va.shape, va.data.zipWith powf vb.data⟩)
            args.1 args.2.1 args.2.2.1 args.2.2.2.1 args.2.2.2.2)
    | _ => .error (.attributeError Option.none)
  | _ => .error .typeError

end Cube

/-- Transpose of three equal-length lists into a list of triples (the
`np.vstack(...).T` step of `flat_coordinates`). -/
def zip3 {α β γ : Type} (as : List α) (bs : List β) (cs : List γ) :
    List (α × β × γ) :=
  List.zipWith (fun a bc => (a, bc.1, bc.2)) as (bs.zip cs)

/-- `np.meshgrid(x, y, z)` with the default `indexing='xy'`, as called by
`Cube.meshgrid` (grids.py line 185).  For inputs of lengths `nx`, `ny`,
`nz` the three output arrays have shape `(ny, nx, nz)` — numpy's `'xy'`
convention swaps the first two dimensions — and, in row-major order,
`X[j, i, k] = x[i]`, `Y[j, i, k] = y[j]`, `Z[j, i, k] = z[k]`. -/
def np_meshgrid_xy {α : Type} (xs ys zs : List α) :
    NpArr α × NpArr α × NpArr α :=
  let shape := [ys.length, xs.length, zs.length]
  (⟨shape, ys.flatMap fun _ => xs.flatMap fun x => zs.map fun _ => x⟩,
   ⟨shape, ys.flatMap fun y => xs.flatMap fun _ => zs.map fun _ => y⟩,
   ⟨shape, ys.flatMap fun _ => xs.flatMap fun _ => zs.map fun z => z⟩)

/-- `Cube.flat_coordinates` (grids.py lines 187-197):
`np.vstack(np.array(self.meshgrid).reshape(len(self.axes), -1)).T`, i.e.
the transpose of the three flattened meshgrid arrays, one coordinate
triple per row.  `self.axes` is the `OrderedDict` built by
`from_cube_file`; the cube grids under study are 3-D, so the three axis
arrays are taken in insertion order. -/
def flat_coordinates {α : Type} (axes : List (String × List α)) :
    List (α × α × α) :=
  match axes with
  | [(_, xs), (_, ys), (_, zs)] =>
      let m := np_meshgrid_xy xs ys zs
      zip3 m.1.data m.2.1.data m.2.2.data
  | _ => []

/-- The coordinate triples of the voxels of a `(nx, ny, nz)`-shaped value
array enumerated in the row-major order of `values.flatten()`: voxel
`(i, j, k)` sits at coordinate `(xs[i], ys[j], zs[k])` (the axes are built
in `from_cube_file` as `np.arange(0, n_voxel) * unit_vector + origin`, one
per dimension, and the value array is reshaped to `n_voxels =
(nx, ny, nz)`).  This is the enumeration the spec's flat-coordinate
contract refers to; claim C2 compares `flat_coordinates` against it. -/
def voxel_coords_row_major {α : Type} (xs ys zs : List α) :
    List (α × α × α) :=
  xs.flatMap fun x => ys.flatMap fun y => zs.map fun z => (x, y, z)

/-- Euclidean distance between two 3-D points, the metric
`scipy.spatial.distance.cdist` applies by default. -/
noncomputable def dist3 (x p : ℝ × ℝ × ℝ) : ℝ :=
  Real.sqrt ((x.1 - p.1) ^ 2 + (x.2.1 - p.2.1) ^ 2 + (x.2.2 - p.2.2) ^ 2)

/-- `scipy.spatial.distance.cdist(XA, XB)` for 3-D points with the default
Euclidean metric: the matrix of pairwise distances, one row per point of
`XA`, one column per point of `XB`. -/
noncomputable def cdist (XA XB : List (ℝ × ℝ × ℝ)) : List (List ℝ) :=
  XA.map fun x => XB.map fun p => dist3 x p

/-- `numpy.argmin` over one row: the index of the first occurrence of the
minimum (numpy documents that ties resolve to the first occurrence).
Returns 0 on an empty row (numpy raises there; no claim hits that case). -/
def np_argmin {β : Type} [LinearOrder β] (l : List β) : ℕ :=
  match l with
  | [] => 0
  | x :: xs => np_argminGo xs x 0 1
where
  /-- Scan the remaining entries, keeping the current best value, its
  index, and the index of the next entry; a strictly smaller entry becomes
  the new best, so ties keep the earlier index. -/
  np_argminGo : List β → β → ℕ → ℕ → ℕ
    | [], _, bi, _ => bi
    | y :: ys, b, bi, i => if y < b then np_argminGo ys y i (i + 1)
                           else np_argminGo ys b bi (i + 1)

/-- `ndarray.reshape(shp)`: keeps the row-major data, replaces the shape;
numpy raises `ValueError` when the element count does not match (negative
entries, which numpy interprets specially, do not occur in the claims and
are rejected here). -/
def np_reshape {α : Type} (a : NpArr α) (shp : List ℤ) :
    Except PyErr (NpArr α) :=
  if (shp.all fun z => 0 ≤ z) ∧ (shp.map Int.toNat).prod = a.data.length
  then .ok ⟨shp.map Int.toNat, a.data⟩ else .error .valueError

namespace Cube

/-- `Cube.points_labelled_by_closest_atom(self)` with no atom descriptors
(grids.py lines 219-237): all atoms of `self.molecule` are used,
`cdist(self.flat_coordinates, atom_positions).argmin(axis=1)` is reshaped
to `self.n_voxels`, and `np.vectorize(atoms.__getitem__)` turns each index
into the atom itself.  Atoms without a position would make numpy build an
object array in Python; the embedding substitutes the origin (the claims
only use atoms that carry positions). -/
noncomputable def points_labelled_by_closest_atom (self : Obj ℝ) :
    Except PyErr (NpArr (Atom ℝ)) :=
  match self with
  | .cube _ _ _ (.axesDict ax) (.mol m) _ _ (.intArr nv) =>
      let atoms := m.atoms
      let atom_positions := atoms.map fun a => a.position.getD (0, 0, 0)
      let closest_by_args :=
        (cdist (flat_coordinates ax) atom_positions).map np_argmin
      match np_reshape ⟨[closest_by_args.length], closest_by_args⟩ nv with
      | .error e => .error e
      | .ok r => .ok ⟨r.shape, r.data.map fun i => atoms.getD i default⟩
  | _ => .error .typeError

end Cube

namespace MoleculeWithCharge

/-- `MoleculeWithCharge.reproduce_cube(self, template_cube)` (entities.py
lines 476-495): `atomic_charges` comes from `self` (`self.list_of_atom_
property('charge')`), but `positions` comes from the template cube's own
molecule (`template_cube.molecule.list_of_atom_property('position')`).
`cdist` of the template's flat coordinates against those positions is
divided into the charges row-wise (numpy broadcasting; for the
`(N, A) / (A,)` shapes at hand this requires the two atom counts to agree
— mismatch is numpy's `ValueError`; the degenerate one-element broadcast
is exercised by no claim), summed over
atoms, reshaped to `template_cube.n_voxels`, and wrapped through
`assign_new_values_to`.  Real division is exact here; a voxel coincident
with an atom position divides by zero, which IEEE floats turn into an
infinity (not representable in `ℝ`, noted where relevant). -/
noncomputable def reproduce_cube (self : Molecule ℝ) (template_cube : Obj ℝ) :
    Except PyErr (Obj ℝ) :=
  match template_cube with
  | .cube ff ft v (.axesDict ax) (.mol tm) og uv (.intArr nv) =>
      let atomic_charges := self.atoms.map fun a => a.charge
      let positions := tm.atoms.map fun a => a.position.getD (0, 0, 0)
      if atomic_charges.length ≠ positions.length then .error .valueError
      else
        let distances := cdist (flat_coordinates ax) positions
        let potentials :=
          distances.map fun row => (atomic_charges.zipWith (· / ·) row).sum
        match np_reshape ⟨[potentials.length], potentials⟩ nv with
        | .error e => .error e
        | .ok r =>
            .ok (Cube.assign_new_values_to
              (.cube ff ft v (.axesDict ax) (.mol tm) og uv (.intArr nv))
              (.arr r))
  | _ => .error .typeError

/-- `MoleculeWithCharge.error_cube(self, potential)` (entities.py lines
497-510): `Cube.assign_new_values_to(potential, self.reproduce_cube(
potential) - potential)`.  The subtraction is `Cube.__sub__` and yields a
`Cube`; that whole `Cube` object — not its value array — is then passed to
`assign_new_values_to` as the replacement for `potential.values`. -/
noncomputable def error_cube (self : Molecule ℝ) (potential : Obj ℝ) :
    Except PyErr (Obj ℝ) := do
  let reproduced ← reproduce_cube self potential
  let difference ← Cube.sub reproduced potential
  return Cube.assign_new_values_to potential difference

end MoleculeWithCharge

/-- Python's `round` to the nearest integer, used by the `'.6f'` / `'.5E'`
format specifiers and by `utils.int_if_close`.  Mathlib's `round` resolves
ties upward while Python resolves them to the nearest even integer; the
two agree off ties, and no claim exercises a tie. -/
def pyRound (x : ℚ) : ℤ := round x

/-- The value denoted by `'{0: .6f}'.format(x)`: `x` rounded to six decimal
places (`Cube.save` writes origins, unit vectors and atom records in this
format). -/
def fmt6f (x : ℚ) : ℚ := (pyRound (x * 10 ^ 6) : ℚ) / 10 ^ 6

/-- The value denoted by `'{0: .5E}'.format(x)`: scientific notation with
five digits after the decimal point, i.e. `x` rounded to six significant
digits (`Cube.save` writes field values in this format).  `Int.log 10 |x|`
is the exponent `e` with `10 ^ e ≤ |x| < 10 ^ (e + 1)`. -/
def fmtE (x : ℚ) : ℚ :=
  if x = 0 then 0
  else
    let scale : ℚ := (10 : ℚ) ^ (Int.log 10 |x| - 5)
    (if x < 0 then -1 else 1) * ((pyRound (|x| / scale) : ℚ) * scale)

/-- Python's `int(...)` applied to a whitespace-split token of a cube file
(atom counts, voxel counts).  The tokens so converted are integer-valued
in every file the claims touch; non-integral junk is floored. -/
def pyInt (x : ℚ) : ℤ := ⌊x⌋

/-- `utils.int_if_close(x, tolerance=0.0001)`: replace `x` by
`round(x, 0)` when it is within `0.0001` of an integer. -/
def int_if_close (x : ℚ) : ℚ :=
  if |(pyRound x : ℚ) - x| ≤ 1 / 10000 then (pyRound x : ℚ) else x

/-- `constants.AXES_NAMES` (the `chargetools/constants.py` module is not in
the source tree; the sibling module `charges/cube.py` line 8 defines it as
the triple of Cartesian axis names, which is also how the spec describes
the three axes). -/
def AXES_NAMES : List String := ["x", "y", "z"]

/-- The value-line layout of `Cube.save` (grids.py lines 114-125): values
are written in sequence and a line break is emitted after the `counter`-th
value when `counter % 6 == 0`, or else when `counter % n_voxels[-1] == 0`;
a final partial line is terminated by the end of the file.  `chunkGo nz vs
i cur` processes the remaining values `vs`, where `i` is the 1-based
counter of the next value and `cur` holds the current line (reversed). -/
def chunkGo (nz : ℕ) : List ℚ → ℕ → List ℚ → List (List ℚ)
  | [], _, cur => if cur.isEmpty then [] else [cur.reverse]
  | v :: vs, i, cur =>
      if i % 6 = 0 ∨ i % nz = 0 then
        (v :: cur).reverse :: chunkGo nz vs (i + 1) []
      else chunkGo nz vs (i + 1) (v :: cur)

/-- `Molecule.from_cube_header(header_lines)` (entities.py lines 210-219):
one atom per line, labels numbered from 1, the second token encoding
`atomic_number + charge`, the remaining tokens the position.
`Molecule.__init__` defaults give charge 0 and no name. -/
def Molecule.from_cube_header (header_lines : List (List ℚ)) : Molecule ℚ :=
  { atoms := header_lines.enum.map fun p =>
      let segments := p.2
      let atomic_number := pyInt (segments.getD 0 0)
      { label := (p.1 : ℤ) + 1
        atomic_number := atomic_number
        charge := int_if_close (segments.getD 1 0 - (atomic_number : ℚ))
        position := some (segments.getD 2 0, segments.getD 3 0,
          segments.getD 4 0) }
    charge := 0
    name := Option.none }

namespace Cube

/-- `Cube.from_cube_file` (grids.py lines 30-91) at the token level: the
file is the list of its lines, each line the list of the numbers its
whitespace-separated tokens denote (the two leading comment lines carry no
numeric tokens).  Line 2 gives the atom count and origin; lines 3-5 each
give a voxel count and a unit-vector row, of which every component with
`abs(scalar_length - 0.) >= 0.01` is appended — without any count check —
to one flat `unit_vectors` list; the atom block follows; all remaining
tokens are the field values, reshaped to `n_voxels` (`np.fromstring` joins
them across line breaks).  The axes dict is built by the truncating
four-way `zip` of names, origins, unit vectors and voxel counts.
`header_only=True` allocates an uninitialized `np.empty` array, modelled
as zeros (no claim reads those entries). -/
def from_cube_file (file_name : String) (lines : List (List ℚ))
    (base_molecule : Option (Molecule ℚ) := Option.none)
    (header_only : Bool := false) (field_type : String := "potential") :
    Except PyErr (Obj ℚ) :=
  let origin_line := lines.getD 2 []
  let n_atoms : ℤ := pyInt (origin_line.getD 0 0)
  let origins : List ℚ := (origin_line.drop 1).take 3
  let axis_lines := (lines.drop 3).take 3
  let unit_vectors : List ℚ :=
    axis_lines.flatMap fun line =>
      (line.drop 1).filter fun scalar_length => 1 / 100 ≤ |scalar_length - 0|
  let n_voxels : List ℤ := axis_lines.map fun line => pyInt (line.getD 0 0)
  let molecule :=
    match base_molecule with
    | some m => m
    | Option.none =>
        Molecule.from_cube_header ((lines.drop 6).take n_atoms.toNat)
  let axes : List (String × List ℚ) :=
    (AXES_NAMES.zip (origins.zip (unit_vectors.zip n_voxels))).map fun p =>
      (p.1, (List.range p.2.2.2.toNat).map fun i => (i : ℚ) * p.2.2.1 + p.2.1)
  let valuesE : Except PyErr (NpArr ℚ) :=
    if header_only then
      .ok ⟨n_voxels.map Int.toNat,
        List.replicate ((n_voxels.map Int.toNat).prod) 0⟩
    else
      let value_tokens := ((lines.drop (6 + n_atoms.toNat)).flatten)
      np_reshape ⟨[value_tokens.length], value_tokens⟩ n_voxels
  match valuesE with
  | .error e => .error e
  | .ok values =>
      .ok (init8 (.str file_name) (.str field_type) (.arr values)
        (.axesDict axes) (.mol molecule) (.arr ⟨[origins.length], origins⟩)
        (.arr ⟨[unit_vectors.length], unit_vectors⟩) (.intArr n_voxels))

/-- The lines written by `Cube.save` (grids.py lines 93-125), at the same
token level as `from_cube_file`: two comment lines; the atom count, the
three origins and a trailing literal `1`; one line per axis holding the
voxel count and the unit-vector row (the vector on the diagonal, zeros
elsewhere, all in `'.6f'` format); one line per atom (atomic number,
`atomic_number + charge`, position, in `'.6f'` format); then the field
values of `self.values.flatten()` in `'.5E'` format, with the line-break
rule of `chunkGo` driven by `n_voxels[-1]`.  A `self` that is not a cube
with array-valued fields would crash Python's attribute accesses; the
embedding returns no lines for it. -/
def save_lines : Obj ℚ → List (List ℚ)
  | .cube _ _ (.arr values) _ (.mol m) (.arr og) (.arr uvA)
      (.intArr n_voxels) =>
      let origin_line : List ℚ :=
        [(m.atoms.length : ℚ), fmt6f (og.data.getD 0 0),
         fmt6f (og.data.getD 1 0), fmt6f (og.data.getD 2 0), 1]
      let axis_lines : List (List ℚ) :=
        ((uvA.data.zip n_voxels).enum).map fun p =>
          (p.2.2 : ℚ) ::
            (List.replicate p.1 (fmt6f 0) ++ [fmt6f p.2.1] ++
              List.replicate (uvA.data.length - p.1 - 1) (fmt6f 0))
      let atom_lines : List (List ℚ) := m.atoms.map fun a =>
        let pos := a.position.getD (0, 0, 0)
        [(a.atomic_number : ℚ), fmt6f ((a.atomic_number : ℚ) + a.charge),
         fmt6f pos.1, fmt6f pos.2.1, fmt6f pos.2.2]
      let nz : ℕ := (n_voxels.getD (n_voxels.length - 1) 0).toNat
      let value_lines := chunkGo nz (values.data.map fmtE) 1 []
      [[], []] ++ [origin_line] ++ axis_lines ++ atom_lines ++ value_lines
  | _ => []

/-- `Cube.save(self, file_path)` including its first statement
`open(file_path, 'x')` (grids.py lines 93-94): mode `'x'` is exclusive
creation, raising `FileExistsError` — before anything is written — when
`file_path` already exists.  The file system is modelled as an association
list from paths to tokenized file contents. -/
def save (fs : List (String × List (List ℚ))) (file_path : String)
    (self : Obj ℚ) : Except PyErr (List (String × List (List ℚ))) :=
  if (fs.lookup file_path).isSome then .error .fileExistsError
  else .ok ((file_path, save_lines self) :: fs)

end Cube

/-! Concrete instances used by the claim theorems. -/

/-- A one-atom molecule over `ℚ` (hydrogen at the origin, no net charge). -/
def exMolQ : Molecule ℚ := ⟨[⟨1, 1, 0, some (0, 0, 0)⟩], 0, Option.none⟩

/-- A well-formed 2×1×1 cube with values `[1, 2]`. -/
def cubeA : Obj ℚ :=
  .cube (.str "a.cub") (.str "potential") (.arr ⟨[2, 1, 1], [1, 2]⟩)
    (.axesDict [("x", [0, 1]), ("y", [0]), ("z", [0])]) (.mol exMolQ)
    (.arr ⟨[3], [0, 0, 0]⟩) (.arr ⟨[3], [1, 1, 1]⟩) (.intArr [2, 1, 1])

/-- A second cube of the same 2×1×1 shape with values `[10, 20]`. -/
def cubeB : Obj ℚ :=
  .cube (.str "b.cub") (.str "potential") (.arr ⟨[2, 1, 1], [10, 20]⟩)
    (.axesDict [("x", [0, 1]), ("y", [0]), ("z", [0])]) (.mol exMolQ)
    (.arr ⟨[3], [0, 0, 0]⟩) (.arr ⟨[3], [1, 1, 1]⟩) (.intArr [2, 1, 1])

/-- A cube of shape `(2, 2, 2)` (all values zero). -/
def cube222 : Obj ℚ :=
  .cube (.str "a.cub") (.str "potential")
    (.arr ⟨[2, 2, 2], List.replicate 8 0⟩)
    (.axesDict [("x", [0, 1]), ("y", [0, 1]), ("z", [0, 1])]) (.mol exMolQ)
    (.arr ⟨[3], [0, 0, 0]⟩) (.arr ⟨[3], [1, 1, 1]⟩) (.intArr [2, 2, 2])

/-- A cube of shape `(2, 2, 3)` (all values zero). -/
def cube223 : Obj ℚ :=
  .cube (.str "b.cub") (.str "potential")
    (.arr ⟨[2, 2, 3], List.replicate 12 0⟩)
    (.axesDict [("x", [0, 1]), ("y", [0, 1]), ("z", [0, 1, 2])])
    (.mol exMolQ) (.arr ⟨[3], [0, 0, 0]⟩) (.arr ⟨[3], [1, 1, 1.5]⟩)
    (.intArr [2, 2, 3])

/-- The shape-mismatch `AttributeError` raised by every binary arithmetic
operator of `grids.Cube`. -/
def shapeErr : Except PyErr (Obj ℚ) :=
  .error (.attributeError
    (some "Cube files must have the same coordinates to be summed."))

/-- A tokenized cube file whose first axis row (line 3) is
`2  1.0  0.5  0.0`: two components at or above the `0.01` tolerance.  One
atom, voxel counts `(2, 2, 1)`, four field values. -/
def c8lines : List (List ℚ) :=
  [[], [], [1, 0, 0, 0, 1], [2, 1, 1/2, 0], [2, 0, 1, 0], [1, 0, 0, 1],
   [1, 1, 0, 0, 0], [5, 5, 5, 5]]

/-- The atom sitting at `(1, 0, 0)` in the claim C9 scenario. -/
def atomA : Atom ℝ := ⟨1, 1, 0, some (1, 0, 0)⟩

/-- The atom sitting at `(0, 10, 0)` in the claim C9 scenario. -/
def atomB : Atom ℝ := ⟨2, 1, 0, some (0, 10, 0)⟩

/-- A 2×2×1 cube over `ℝ` with axes `x = [0, 1]`, `y = [0, 10]`,
`z = [0]` and the two atoms `atomA`, `atomB`. -/
def nineCube : Obj ℝ :=
  .cube (.str "n.cub") (.str "potential")
    (.arr ⟨[2, 2, 1], [0, 0, 0, 0]⟩)
    (.axesDict [("x", [0, 1]), ("y", [0, 10]), ("z", [0])])
    (.mol ⟨[atomA, atomB], 0, Option.none⟩)
    (.arr ⟨[3], [0, 0, 0]⟩) (.arr ⟨[3], [1, 10, 1]⟩) (.intArr [2, 2, 1])

/-- A charged molecule over `ℝ`: one atom of charge `+1` whose own recorded
position is `(5, 5, 5)`. -/
def selfMol3 : Molecule ℝ := ⟨[⟨1, 1, 1, some (5, 5, 5)⟩], 0, Option.none⟩

/-- A reference potential cube over `ℝ`: a single voxel at `(1, 0, 0)`
holding the value `3`, whose molecule has one atom at the origin. -/
def potCube3 : Obj ℝ :=
  .cube (.str "p.cub") (.str "potential") (.arr ⟨[1, 1, 1], [3]⟩)
    (.axesDict [("x", [1]), ("y", [0]), ("z", [0])])
    (.mol ⟨[⟨1, 1, 0, some (0, 0, 0)⟩], 0, Option.none⟩)
    (.arr ⟨[3], [0, 0, 0]⟩) (.arr ⟨[3], [1, 1, 1]⟩) (.intArr [1, 1, 1])

/-- A charged molecule over `ℝ` whose single atom of charge `+1` sits at
the origin (for the claim C4 counterexample). -/
def selfMol4 : Molecule ℝ := ⟨[⟨1, 1, 1, some (0, 0, 0)⟩], 0, Option.none⟩

/-- A template cube over `ℝ` with a single voxel at `(4, 0, 0)`, whose own
molecule's single atom sits at `(3, 0, 0)` — a different position than the
atom of `selfMol4`. -/
def tmplCube4 : Obj ℝ :=
  .cube (.str "t.cub") (.str "potential") (.arr ⟨[1, 1, 1], [0]⟩)
    (.axesDict [("x", [4]), ("y", [0]), ("z", [0])])
    (.mol ⟨[⟨1, 1, 0, some (3, 0, 0)⟩], 0, Option.none⟩)
    (.arr ⟨[3], [0, 0, 0]⟩) (.arr ⟨[3], [1, 1, 1]⟩) (.intArr [1, 1, 1])

/-! Theorems settling the claims. -/

/-- C7: for every receiver and every operand — scalar, array, cube, or
anything else — `Cube.__truediv__` returns exactly what `Cube.__mul__`
returns, because its body is a verbatim copy of `__mul__` and never
divides. -/
theorem claim_C7_truediv_is_mul (self other : Obj ℚ) :
    Cube.truediv self other = Cube.mul self other := rfl

/-- C1: adding the two same-shaped cubes `cubeA` and `cubeB` does not put
the elementwise sum into the result's `values` field.  The operators call
`Cube.__init__` with seven positional arguments, omitting `field_type`, so
every field from `field_type` on is shifted: the sum array lands in
`field_type`, `values` receives `cubeA`'s axes dict, `axes` its molecule,
`molecule` its origins, `origins` its unit vectors, `unit_vectors` its
voxel counts, and `n_voxels` is `None`. -/
theorem claim_C1_add_shifts_fields :
    Cube.add cubeA cubeB =
      .ok (.cube (.str "a.cub") (.arr ⟨[2, 1, 1], [11, 22]⟩)
        (.axesDict [("x", [0, 1]), ("y", [0]), ("z", [0])]) (.mol exMolQ)
        (.arr ⟨[3], [0, 0, 0]⟩) (.arr ⟨[3], [1, 1, 1]⟩) (.intArr [2, 1, 1])
        .none)
    ∧ (Cube.add cubeA cubeB).map Obj.valuesField ≠
        .ok (.arr ⟨[2, 1, 1], [11, 22]⟩)
    ∧ (Cube.add cubeA cubeB).map Obj.valuesField =
        .ok (.axesDict [("x", [0, 1]), ("y", [0]), ("z", [0])]) := by
  have hadd : Cube.add cubeA cubeB =
      .ok (.cube (.str "a.cub") (.arr ⟨[2, 1, 1], [11, 22]⟩)
        (.axesDict [("x", [0, 1]), ("y", [0]), ("z", [0])]) (.mol exMolQ)
        (.arr ⟨[3], [0, 0, 0]⟩) (.arr ⟨[3], [1, 1, 1]⟩) (.intArr [2, 1, 1])
        .none) := by
    norm_num [Cube.add, cubeA, cubeB, Cube.init7, Cube.grid_args,
      Obj.axesField, Obj.moleculeField, Obj.originsField,
      Obj.unitVectorsField, Obj.nVoxelsField]
  refine ⟨hadd, ?_, ?_⟩
  · rw [hadd]
    simp only [Except.map, Obj.valuesField]
    exact fun h => Obj.noConfusion (Except.ok.inj h)
  · rw [hadd]
    simp only [Except.map, Obj.valuesField]

/-- C2: `flat_coordinates` does not enumerate voxels in the row-major
order of the `(nx, ny, nz)`-shaped value array.  With axes `x = [0, 1]`,
`y = [0, 10]`, `z = [0]`, flat index 1 of `flat_coordinates` is
`(1, 0, 0)` (numpy's default meshgrid indexing makes the y index the
slowest), while `values.flatten()[1]` is the voxel at `(0, 10, 0)`. -/
theorem claim_C2_flat_coordinates_misordered :
    flat_coordinates [("x", ([0, 1] : List ℚ)), ("y", [0, 10]), ("z", [0])]
        ≠ voxel_coords_row_major ([0, 1] : List ℚ) [0, 10] [0]
    ∧ (flat_coordinates
        [("x", ([0, 1] : List ℚ)), ("y", [0, 10]), ("z", [0])]).getD 1
          (0, 0, 0) = ((1 : ℚ), 0, 0)
    ∧ (voxel_coords_row_major ([0, 1] : List ℚ) [0, 10] [0]).getD 1
          (0, 0, 0) = ((0 : ℚ), 10, 0)
    ∧ (flat_coordinates
        [("x", ([0, 1] : List ℚ)), ("y", [0, 10]), ("z", [0])]).length =
        (voxel_coords_row_major ([0, 1] : List ℚ) [0, 10] [0]).length := by
  decide

/-- C8: parsing a cube file whose first axis row holds two components at
or above the `0.01` tolerance (`1.0` and `0.5`) succeeds instead of
failing: `from_cube_file` performs no per-row count check, so both
components are appended and the `unit_vectors` array ends up with four
entries; the truncating zip then builds the y axis from the off-diagonal
`0.5`. -/
theorem claim_C8_off_diagonal_accepted :
    (Cube.from_cube_file "f.cub" c8lines).map Obj.unitVectorsField =
      .ok (.arr ⟨[4], [1, 1/2, 1, 1]⟩)
    ∧ (Cube.from_cube_file "f.cub" c8lines).map Obj.axesField =
      .ok (.axesDict [("x", [0, 1]), ("y", [0, 1/2]), ("z", [0])]) := by
  have habs : |(1 : ℚ) / 2| = 1 / 2 := abs_of_pos (by norm_num)
  have hr2 : List.range 2 = [0, 1] := rfl
  have hr1 : List.range 1 = [0] := rfl
  have hti : Int.toNat 2 = 2 := rfl
  refine ⟨?_, ?_⟩ <;>
    norm_num [Cube.from_cube_file, c8lines, AXES_NAMES, pyInt, np_reshape,
      Cube.init8, Obj.unitVectorsField, Obj.axesField, Except.map,
      List.filter_cons, Int.floor_intCast, habs, hr2, hr1, hti,
      List.flatMap_cons, List.flatMap_nil]

/-- C5 counterexample: combining the shape-`(2,2,2)` and shape-`(2,2,3)`
cubes raises the builtin `AttributeError` carrying the documented message,
not an exception of the spec's `ShapeMismatchError` kind — no such class
exists in the source. -/
theorem claim_C5_counterexample :
    Cube.add cube222 cube223 = shapeErr
    ∧ Cube.add cube222 cube223 ≠
        .error (.shapeMismatchError
          (some "Cube files must have the same coordinates to be summed."))
    := by
  refine ⟨?_, ?_⟩ <;>
    simp [Cube.add, cube222, cube223, shapeErr]

/-- C5 (amended): for every pair of cubes whose value arrays have
different shapes, each of the five binary arithmetic operators raises the
builtin `AttributeError` with the message "Cube files must have the same
coordinates to be summed.", and no result cube is produced. -/
theorem claim_C5_shape_mismatch_raises
    (ff ft ax mo og uv nv ff2 ft2 ax2 mo2 og2 uv2 nv2 : Obj ℚ)
    (va vb : NpArr ℚ) (powf : ℚ → ℚ → ℚ)
    (h : va.shape ≠ vb.shape) :
    Cube.add (.cube ff ft (.arr va) ax mo og uv nv)
        (.cube ff2 ft2 (.arr vb) ax2 mo2 og2 uv2 nv2) = shapeErr
    ∧ Cube.sub (.cube ff ft (.arr va) ax mo og uv nv)
        (.cube ff2 ft2 (.arr vb) ax2 mo2 og2 uv2 nv2) = shapeErr
    ∧ Cube.mul (.cube ff ft (.arr va) ax mo og uv nv)
        (.cube ff2 ft2 (.arr vb) ax2 mo2 og2 uv2 nv2) = shapeErr
    ∧ Cube.truediv (.cube ff ft (.arr va) ax mo og uv nv)
        (.cube ff2 ft2 (.arr vb) ax2 mo2 og2 uv2 nv2) = shapeErr
    ∧ Cube.pow powf (.cube ff ft (.arr va) ax mo og uv nv)
        (.cube ff2 ft2 (.arr vb) ax2 mo2 og2 uv2 nv2) = shapeErr := by
  refine ⟨?_, ?_, ?_, ?_, ?_⟩ <;>
    simp [Cube.add, Cube.sub, Cube.mul, Cube.truediv, Cube.pow, h, shapeErr]

/-- C5 witness: the amended statement applied to the concrete shapes
`(2, 2, 2)` and `(2, 2, 3)`. -/
theorem claim_C5_shape_mismatch_witness :
    Cube.add cube222 cube223 = shapeErr
    ∧ Cube.sub cube222 cube223 = shapeErr
    ∧ Cube.mul cube222 cube223 = shapeErr
    ∧ Cube.truediv cube222 cube223 = shapeErr
    ∧ Cube.pow (fun a b => a * b) cube222 cube223 = shapeErr :=
  claim_C5_shape_mismatch_raises (.str "a.cub") (.str "potential")
    (.axesDict [("x", [0, 1]), ("y", [0, 1]), ("z", [0, 1])]) (.mol exMolQ)
    (.arr ⟨[3], [0, 0, 0]⟩) (.arr ⟨[3], [1, 1, 1]⟩) (.intArr [2, 2, 2])
    (.str "b.cub") (.str "potential")
    (.axesDict [("x", [0, 1]), ("y", [0, 1]), ("z", [0, 1, 2])])
    (.mol exMolQ) (.arr ⟨[3], [0, 0, 0]⟩) (.arr ⟨[3], [1, 1, 1.5]⟩)
    (.intArr [2, 2, 3]) ⟨[2, 2, 2], List.replicate 8 0⟩
    ⟨[2, 2, 3], List.replicate 12 0⟩ (fun a b => a * b) (by decide)

/-- C10: `Cube.save` opens its target with mode `'x'` (exclusive
creation): saving to an existing path fails with `FileExistsError` and
leaves the file system untouched, and a successful save implies the path
was previously absent and only prepends the new file. -/
theorem claim_C10_save_exclusive
    (fs : List (String × List (List ℚ))) (file_path : String) (c : Obj ℚ) :
    ((fs.lookup file_path).isSome →
      Cube.save fs file_path c = .error .fileExistsError)
    ∧ (∀ fs2, Cube.save fs file_path c = .ok fs2 →
        fs.lookup file_path = Option.none
        ∧ fs2 = (file_path, Cube.save_lines c) :: fs) := by
  constructor
  · intro h
    simp [Cube.save, h]
  · intro fs2 h
    by_cases hex : (fs.lookup file_path).isSome
    · simp [Cube.save, hex] at h
    · simp [Cube.save, hex] at h
      exact ⟨Option.not_isSome_iff_eq_none.mp hex, h.symm⟩

/-- C10 witness: saving `cubeA` to a path already present in a one-file
file system fails with `FileExistsError`. -/
theorem claim_C10_save_exclusive_witness :
    Cube.save [("a.cub", [])] "a.cub" cubeA = .error .fileExistsError :=
  (claim_C10_save_exclusive [("a.cub", [])] "a.cub" cubeA).1 (by decide)

/-- C3: `error_cube` does not return a cube whose `values` array is the
elementwise difference.  On the one-voxel reference `potCube3` (value `3`
at `(1, 0, 0)`, one unit-charge atom at the origin) the reproduced
potential is `1`, the difference cube produced by `Cube.__sub__` holds
`[-2]` — and `error_cube` then passes that whole `Cube` object to
`assign_new_values_to`, so the returned field's `values` attribute is a
nested `Cube`, not the difference array `[-2]`. -/
theorem claim_C3_error_cube_nests_cube :
    (MoleculeWithCharge.error_cube selfMol3 potCube3).map Obj.valuesField =
      .ok (.cube (.str "p.cub") (.str "potential")
        (.arr ⟨[1, 1, 1], [-2]⟩)
        (.axesDict [("x", [1]), ("y", [0]), ("z", [0])])
        (.mol ⟨[⟨1, 1, 0, some (0, 0, 0)⟩], 0, Option.none⟩)
        (.arr ⟨[3], [0, 0, 0]⟩) (.arr ⟨[3], [1, 1, 1]⟩)
        (.intArr [1, 1, 1]))
    ∧ (MoleculeWithCharge.error_cube selfMol3 potCube3).map Obj.valuesField
      ≠ .ok (.arr ⟨[1, 1, 1], [-2]⟩) := by
  have hd : dist3 ((1 : ℝ), 0, 0) (0, 0, 0) = 1 := by
    simp [dist3]
  have herr : MoleculeWithCharge.error_cube selfMol3 potCube3 =
      .ok (.cube (.str "p.cub") (.str "potential")
        (.cube (.str "p.cub") (.str "potential") (.arr ⟨[1, 1, 1], [-2]⟩)
          (.axesDict [("x", [1]), ("y", [0]), ("z", [0])])
          (.mol ⟨[⟨1, 1, 0, some (0, 0, 0)⟩], 0, Option.none⟩)
          (.arr ⟨[3], [0, 0, 0]⟩) (.arr ⟨[3], [1, 1, 1]⟩)
          (.intArr [1, 1, 1]))
        (.axesDict [("x", [1]), ("y", [0]), ("z", [0])])
        (.mol ⟨[⟨1, 1, 0, some (0, 0, 0)⟩], 0, Option.none⟩)
        (.arr ⟨[3], [0, 0, 0]⟩) (.arr ⟨[3], [1, 1, 1]⟩)
        (.intArr [1, 1, 1])) := by
    norm_num [MoleculeWithCharge.error_cube, MoleculeWithCharge.reproduce_cube,
      selfMol3, potCube3, flat_coordinates, np_meshgrid_xy, zip3, cdist, hd,
      np_reshape, Cube.assign_new_values_to, Cube.init8, Cube.sub,
      Obj.fromFileField, Obj.fieldTypeField, Obj.axesField, Obj.moleculeField,
      Obj.originsField, Obj.unitVectorsField, Obj.nVoxelsField,
      Except.bind, bind, pure, Except.pure, -Prod.mk_zero_zero, -one_div]
  refine ⟨?_, ?_⟩
  · rw [herr]
    simp only [Except.map, Obj.valuesField]
  · rw [herr]
    simp only [Except.map, Obj.valuesField]
    exact fun h => Obj.noConfusion (Except.ok.inj h)

/-- C4 counterexample: `reproduce_cube` takes atom positions from the
template cube's molecule, not from the molecule it is invoked on.
`selfMol4`'s only atom (charge 1) sits at the origin, but the template's
molecule has its atom at `(3, 0, 0)`; at the single voxel `(4, 0, 0)` the
computed potential is `1 / 1 = 1`, whereas charges and positions both
drawn from the invoked molecule would give `1 / 4`. -/
theorem claim_C4_counterexample :
    (MoleculeWithCharge.reproduce_cube selfMol4 tmplCube4).map
        Obj.valuesField = .ok (.arr ⟨[1, 1, 1], [1]⟩)
    ∧ (1 : ℝ) ≠ 1 / dist3 ((4 : ℝ), 0, 0) (0, 0, 0) := by
  have hd : dist3 ((4 : ℝ), 0, 0) (3, 0, 0) = 1 := by
    simp [dist3]
    norm_num
  have hd4 : dist3 ((4 : ℝ), 0, 0) (0, 0, 0) = 4 := by
    simp only [dist3]
    rw [show ((4 : ℝ) - 0) ^ 2 + (0 - 0) ^ 2 + (0 - 0) ^ 2 = 4 ^ 2 by
      norm_num]
    exact Real.sqrt_sq (by norm_num)
  refine ⟨?_, ?_⟩
  · norm_num [MoleculeWithCharge.reproduce_cube, selfMol4, tmplCube4,
      flat_coordinates, np_meshgrid_xy, zip3, cdist, hd, np_reshape,
      Cube.assign_new_values_to, Cube.init8, Obj.fromFileField,
      Obj.fieldTypeField, Obj.axesField, Obj.moleculeField, Obj.originsField,
      Obj.unitVectorsField, Obj.nVoxelsField, Obj.valuesField, Except.map,
      -Prod.mk_zero_zero, -one_div]
  · rw [hd4]
    norm_num

/-- C4 (amended): for every charged molecule and well-formed template cube
with equally many atoms, `reproduce_cube` evaluates, at each coordinate
`x` of the template's flat coordinate list, the sum over atoms of
`q_i / dist(x, p_i)` — where the charges `q_i` come from the molecule the
method is invoked on but the positions `p_i` come from the template
cube's molecule — reshapes the result to the template's voxel counts, and
returns a new cube sharing every other field with the template. -/
theorem claim_C4_reproduce_formula (self : Molecule ℝ)
    (ff ft v og uv : Obj ℝ) (ax : List (String × List ℝ)) (tm : Molecule ℝ)
    (nv : List ℤ) (hlen : self.atoms.length = tm.atoms.length)
    (hnn : nv.all (fun z => 0 ≤ z))
    (hprod : (nv.map Int.toNat).prod = (flat_coordinates ax).length) :
    MoleculeWithCharge.reproduce_cube self
        (.cube ff ft v (.axesDict ax) (.mol tm) og uv (.intArr nv)) =
      .ok (.cube ff ft
        (.arr ⟨nv.map Int.toNat,
          (flat_coordinates ax).map fun x =>
            (List.zipWith
              (fun a b => a.charge / dist3 x (b.position.getD (0, 0, 0)))
              self.atoms tm.atoms).sum⟩)
        (.axesDict ax) (.mol tm) og uv (.intArr nv)) := by
  have hlen2 : (self.atoms.map fun a => a.charge).length =
      (tm.atoms.map fun a => a.position.getD (0, 0, 0)).length := by
    simp [hlen]
  have hfuse :
      (cdist (flat_coordinates ax)
          (tm.atoms.map fun a => a.position.getD (0, 0, 0))).map
        (fun row =>
          ((self.atoms.map fun a => a.charge).zipWith (· / ·) row).sum) =
      (flat_coordinates ax).map fun x =>
        (List.zipWith
          (fun a b => a.charge / dist3 x (b.position.getD (0, 0, 0)))
          self.atoms tm.atoms).sum := by
    simp only [cdist, List.map_map]
    refine List.map_congr_left fun x _ => ?_
    simp only [Function.comp_apply, List.map_map, List.zipWith_map,
      Function.comp]
  have hrlen :
      ((cdist (flat_coordinates ax)
          (tm.atoms.map fun a => a.position.getD (0, 0, 0))).map
        (fun row =>
          ((self.atoms.map fun a => a.charge).zipWith (· / ·) row).sum)).length
        = (flat_coordinates ax).length := by
    simp [cdist]
  simp only [MoleculeWithCharge.reproduce_cube]
  rw [if_neg (not_not_intro hlen2)]
  rw [hfuse] at hrlen ⊢
  simp only [np_reshape, hrlen, hprod, hnn, and_self, if_pos, true_and]
  simp [Cube.assign_new_values_to, Cube.init8, Obj.fromFileField,
    Obj.fieldTypeField, Obj.axesField, Obj.moleculeField, Obj.originsField,
    Obj.unitVectorsField, Obj.nVoxelsField]

/-- C4 witness: the amended statement applied to the spec's own example —
a single atom of charge `+1` at the origin and a one-voxel template grid
at `(1, 0, 0)` (whose template molecule also holds the atom). -/
theorem claim_C4_reproduce_formula_witness :
    MoleculeWithCharge.reproduce_cube selfMol4
        (.cube (.str "p.cub") (.str "potential") (.arr ⟨[1, 1, 1], [3]⟩)
          (.axesDict [("x", [1]), ("y", [0]), ("z", [0])])
          (.mol ⟨[⟨1, 1, 0, some (0, 0, 0)⟩], 0, Option.none⟩)
          (.arr ⟨[3], [0, 0, 0]⟩) (.arr ⟨[3], [1, 1, 1]⟩)
          (.intArr [1, 1, 1])) =
      .ok (.cube (.str "p.cub") (.str "potential")
        (.arr ⟨[1, 1, 1].map Int.toNat,
          (flat_coordinates [("x", [1]), ("y", [0]), ("z", [0])]).map fun x =>
            (List.zipWith
              (fun (a b : Atom ℝ) =>
                a.charge / dist3 x (b.position.getD (0, 0, 0)))
              selfMol4.atoms ([⟨1, 1, 0, some (0, 0, 0)⟩] : List (Atom ℝ))).sum⟩)
        (.axesDict [("x", [1]), ("y", [0]), ("z", [0])])
        (.mol ⟨[⟨1, 1, 0, some (0, 0, 0)⟩], 0, Option.none⟩)
        (.arr ⟨[3], [0, 0, 0]⟩) (.arr ⟨[3], [1, 1, 1]⟩)
        (.intArr [1, 1, 1])) :=
  claim_C4_reproduce_formula selfMol4 (.str "p.cub") (.str "potential")
    (.arr ⟨[1, 1, 1], [3]⟩) (.arr ⟨[3], [0, 0, 0]⟩)
    (.arr ⟨[3], [1, 1, 1]⟩) [("x", [1]), ("y", [0]), ("z", [0])]
    ⟨[⟨1, 1, 0, some (0, 0, 0)⟩], 0, Option.none⟩ [1, 1, 1] rfl
    (by decide) rfl

/-- C9: the labels returned by `points_labelled_by_closest_atom` do not
assign each voxel the atom nearest to that voxel's coordinate.  On the
2×2×1 grid of `nineCube` (axes `x = [0, 1]`, `y = [0, 10]`, `z = [0]`)
the result is `[atomA, atomA, atomB, atomB]` in row-major order, so the
voxel `(0, 1, 0)` — flat index 1, coordinate `(0, 10, 0)` — is labelled
`atomA` at `(1, 0, 0)`; yet the distance-minimizing atom at `(0, 10, 0)`
is `atomB` (argmin index 1, distance 0), because `flat_coordinates`
enumerates the grid in meshgrid order rather than row-major order. -/
theorem claim_C9_labels_misassigned :
    Cube.points_labelled_by_closest_atom nineCube =
      .ok ⟨[2, 2, 1], [atomA, atomA, atomB, atomB]⟩
    ∧ np_argmin [dist3 ((0 : ℝ), 10, 0) (1, 0, 0),
        dist3 ((0 : ℝ), 10, 0) (0, 10, 0)] = 1
    ∧ atomA ≠ atomB := by
  have h100 : Real.sqrt 100 = 10 := by
    rw [show (100 : ℝ) = 10 ^ 2 by norm_num]
    exact Real.sqrt_sq (by norm_num)
  have d1 : dist3 ((0 : ℝ), 0, 0) (1, 0, 0) = 1 := by
    norm_num [dist3]
  have d2 : dist3 ((0 : ℝ), 0, 0) (0, 10, 0) = 10 := by
    norm_num [dist3, h100]
  have d3 : dist3 ((1 : ℝ), 0, 0) (1, 0, 0) = 0 := by
    norm_num [dist3]
  have d4 : dist3 ((1 : ℝ), 0, 0) (0, 10, 0) = Real.sqrt 101 := by
    norm_num [dist3]
  have d5 : dist3 ((0 : ℝ), 10, 0) (1, 0, 0) = Real.sqrt 101 := by
    norm_num [dist3]
  have d6 : dist3 ((0 : ℝ), 10, 0) (0, 10, 0) = 0 := by
    norm_num [dist3]
  have d7 : dist3 ((1 : ℝ), 10, 0) (1, 0, 0) = 10 := by
    norm_num [dist3, h100]
  have d8 : dist3 ((1 : ℝ), 10, 0) (0, 10, 0) = 1 := by
    norm_num [dist3]
  have hpos : (0 : ℝ) < Real.sqrt 101 := Real.sqrt_pos.mpr (by norm_num)
  have hrow1 : np_argmin [(0 : ℝ), Real.sqrt 101] = 0 := by
    simp [np_argmin, np_argmin.np_argminGo, hpos.not_lt]
  have hrow2 : np_argmin [Real.sqrt 101, (0 : ℝ)] = 1 := by
    simp [np_argmin, np_argmin.np_argminGo, hpos]
  have hrow0 : np_argmin [(1 : ℝ), 10] = 0 := by
    norm_num [np_argmin, np_argmin.np_argminGo]
  have hrow3 : np_argmin [(10 : ℝ), 1] = 1 := by
    norm_num [np_argmin, np_argmin.np_argminGo]
  refine ⟨?_, ?_, ?_⟩
  · have hti : Int.toNat 2 = 2 := rfl
    norm_num [Cube.points_labelled_by_closest_atom, nineCube, atomA, atomB,
      flat_coordinates, np_meshgrid_xy, zip3, cdist, d1, d2, d3, d4, d5, d6,
      d7, d8, hrow0, hrow1, hrow2, hrow3, np_reshape, List.getD, hti,
      -Prod.mk_zero_zero, -one_div]
  · rw [d5, d6]
    exact hrow2
  · simp [atomA, atomB]

/-- The `'.6f'` format turns an exact zero into an exact zero. -/
theorem fmt6f_zero : fmt6f 0 = 0 := by
  norm_num [fmt6f, pyRound]

/-- Concatenating the value lines written by `Cube.save` recovers the
written token sequence: the line-break bookkeeping never drops or
duplicates a value. -/
theorem chunkGo_flatten (nz : ℕ) :
    ∀ (vs : List ℚ) (i : ℕ) (cur : List ℚ),
      (chunkGo nz vs i cur).flatten = cur.reverse ++ vs := by
  intro vs
  induction vs with
  | nil =>
      intro i cur
      cases cur <;> simp [chunkGo]
  | cons v vs ih =>
      intro i cur
      simp only [chunkGo]
      by_cases h : i % 6 = 0 ∨ i % nz = 0
      · rw [if_pos h]
        simp [ih]
      · rw [if_neg h]
        rw [ih]
        simp

/-- C6 counterexample: grid metadata does not round-trip exactly.  A cube
whose origin has x component `10⁻⁷` is serialized with six decimal places,
so parsing the saved file returns origin `(0, 0, 0)`. -/
theorem claim_C6_counterexample :
    (Cube.from_cube_file "r.cub" (Cube.save_lines
        (.cube (.str "c.cub") (.str "potential") (.arr ⟨[1, 1, 1], [0]⟩)
          (.axesDict [("x", [0]), ("y", [0]), ("z", [0])]) (.mol exMolQ)
          (.arr ⟨[3], [1 / 10 ^ 7, 0, 0]⟩) (.arr ⟨[3], [1, 1, 1]⟩)
          (.intArr [1, 1, 1])))).map Obj.originsField =
      .ok (.arr ⟨[3], [0, 0, 0]⟩)
    ∧ ((.arr ⟨[3], [0, 0, 0]⟩ : Obj ℚ) ≠ .arr ⟨[3], [1 / 10 ^ 7, 0, 0]⟩) := by
  constructor
  · norm_num [Cube.save_lines, Cube.from_cube_file, exMolQ, AXES_NAMES,
      fmt6f, fmtE, pyRound, pyInt, round_eq, chunkGo, np_reshape,
      Cube.init8, Obj.originsField, Except.map, List.filter_cons,
      List.zip, List.enum, List.enumFrom, List.replicate,
      Int.floor_intCast, Molecule.from_cube_header, int_if_close]
  · simp
    norm_num

/-- C6 (amended): parsing the lines saved from a well-formed cube
reproduces the voxel counts exactly, reproduces the origin and the unit
vectors to the six-decimal-place precision of the `'.6f'` header format
(i.e. yields `fmt6f` of the originals — exact only when the originals are
representable in six decimals), and reproduces the values to the
`'.5E'` precision (`fmtE` of the originals), reshaped to the voxel
counts. -/
theorem claim_C6_roundtrip (fn fn2 ftype : String) (vals : List ℚ)
    (shape : List ℕ) (axd : List (String × List ℚ)) (m : Molecule ℚ)
    (o1 o2 o3 u1 u2 u3 : ℚ) (n1 n2 n3 : ℤ)
    (h1 : 1 / 100 ≤ |fmt6f u1 - 0|) (h2 : 1 / 100 ≤ |fmt6f u2 - 0|)
    (h3 : 1 / 100 ≤ |fmt6f u3 - 0|)
    (hn1 : 0 ≤ n1) (hn2 : 0 ≤ n2) (hn3 : 0 ≤ n3)
    (hlen : ([n1, n2, n3].map Int.toNat).prod = vals.length) :
    (Cube.from_cube_file fn2 (Cube.save_lines
        (.cube (.str fn) (.str ftype) (.arr ⟨shape, vals⟩) (.axesDict axd)
          (.mol m) (.arr ⟨[3], [o1, o2, o3]⟩) (.arr ⟨[3], [u1, u2, u3]⟩)
          (.intArr [n1, n2, n3])))).map Obj.originsField =
      .ok (.arr ⟨[3], [fmt6f o1, fmt6f o2, fmt6f o3]⟩)
    ∧ (Cube.from_cube_file fn2 (Cube.save_lines
        (.cube (.str fn) (.str ftype) (.arr ⟨shape, vals⟩) (.axesDict axd)
          (.mol m) (.arr ⟨[3], [o1, o2, o3]⟩) (.arr ⟨[3], [u1, u2, u3]⟩)
          (.intArr [n1, n2, n3])))).map Obj.unitVectorsField =
      .ok (.arr ⟨[3], [fmt6f u1, fmt6f u2, fmt6f u3]⟩)
    ∧ (Cube.from_cube_file fn2 (Cube.save_lines
        (.cube (.str fn) (.str ftype) (.arr ⟨shape, vals⟩) (.axesDict axd)
          (.mol m) (.arr ⟨[3], [o1, o2, o3]⟩) (.arr ⟨[3], [u1, u2, u3]⟩)
          (.intArr [n1, n2, n3])))).map Obj.nVoxelsField =
      .ok (.intArr [n1, n2, n3])
    ∧ (Cube.from_cube_file fn2 (Cube.save_lines
        (.cube (.str fn) (.str ftype) (.arr ⟨shape, vals⟩) (.axesDict axd)
          (.mol m) (.arr ⟨[3], [o1, o2, o3]⟩) (.arr ⟨[3], [u1, u2, u3]⟩)
          (.intArr [n1, n2, n3])))).map Obj.valuesField =
      .ok (.arr ⟨[n1.toNat, n2.toNat, n3.toNat], vals.map fmtE⟩) := by
  have hz : ¬ ((1 : ℚ) / 100 ≤ |fmt6f 0 - 0|) := by
    rw [fmt6f_zero]
    norm_num
  have hsave : Cube.save_lines
      (.cube (.str fn) (.str ftype) (.arr ⟨shape, vals⟩) (.axesDict axd)
        (.mol m) (.arr ⟨[3], [o1, o2, o3]⟩) (.arr ⟨[3], [u1, u2, u3]⟩)
        (.intArr [n1, n2, n3])) =
      ([] : List ℚ) :: [] ::
        [(m.atoms.length : ℚ), fmt6f o1, fmt6f o2, fmt6f o3, 1] ::
        [(n1 : ℚ), fmt6f u1, fmt6f 0, fmt6f 0] ::
        [(n2 : ℚ), fmt6f 0, fmt6f u2, fmt6f 0] ::
        [(n3 : ℚ), fmt6f 0, fmt6f 0, fmt6f u3] ::
        ((m.atoms.map fun a =>
          [(a.atomic_number : ℚ), fmt6f ((a.atomic_number : ℚ) + a.charge),
           fmt6f (a.position.getD (0, 0, 0)).1,
           fmt6f (a.position.getD (0, 0, 0)).2.1,
           fmt6f (a.position.getD (0, 0, 0)).2.2]) ++
          chunkGo n3.toNat (vals.map fmtE) 1 []) := by
    simp [Cube.save_lines, List.zip, List.enum, List.enumFrom,
      List.replicate]
  have hdrop : (([] : List ℚ) :: [] ::
        [(m.atoms.length : ℚ), fmt6f o1, fmt6f o2, fmt6f o3, 1] ::
        [(n1 : ℚ), fmt6f u1, fmt6f 0, fmt6f 0] ::
        [(n2 : ℚ), fmt6f 0, fmt6f u2, fmt6f 0] ::
        [(n3 : ℚ), fmt6f 0, fmt6f 0, fmt6f u3] ::
        ((m.atoms.map fun a =>
          [(a.atomic_number : ℚ), fmt6f ((a.atomic_number : ℚ) + a.charge),
           fmt6f (a.position.getD (0, 0, 0)).1,
           fmt6f (a.position.getD (0, 0, 0)).2.1,
           fmt6f (a.position.getD (0, 0, 0)).2.2]) ++
          chunkGo n3.toNat (vals.map fmtE) 1 [])).drop
        (6 + m.atoms.length) = chunkGo n3.toNat (vals.map fmtE) 1 [] := by
    rw [← List.drop_drop]
    simp only [List.drop_succ_cons, List.drop_zero]
    exact List.drop_left' (by simp)
  refine ⟨?_, ?_, ?_, ?_⟩ <;>
    simp only [hsave, Cube.from_cube_file, pyInt, List.getD_cons_zero,
      List.getD_cons_succ, List.drop_succ_cons, List.drop_zero,
      List.take_succ_cons, List.take_zero, Int.floor_natCast,
      Int.floor_intCast, Int.toNat_ofNat, hdrop, chunkGo_flatten,
      List.reverse_nil, List.nil_append, List.flatMap_cons,
      List.flatMap_nil, List.filter_cons, decide_eq_true_eq, h1, h2, h3,
      hz, if_true, if_false, np_reshape, List.length_map, List.map_cons,
      List.map_nil, List.all_cons, List.all_nil, hn1, hn2, hn3,
      List.take_left' (List.length_map m.atoms _), Cube.init8,
      Obj.originsField, Obj.unitVectorsField, Obj.nVoxelsField,
      Obj.valuesField, Except.map] <;>
    simp [show n1.toNat * (n2.toNat * n3.toNat) = vals.length from
      by simpa using hlen]

/-- C6 witness: the amended round-trip statement applied to a concrete
1×1×1 cube with unit vectors `1` and value list `[0]`. -/
theorem claim_C6_roundtrip_witness :
    (Cube.from_cube_file "r.cub" (Cube.save_lines
        (.cube (.str "c.cub") (.str "potential") (.arr ⟨[1, 1, 1], [0]⟩)
          (.axesDict [("x", [0]), ("y", [0]), ("z", [0])]) (.mol exMolQ)
          (.arr ⟨[3], [0, 0, 0]⟩) (.arr ⟨[3], [1, 1, 1]⟩)
          (.intArr [1, 1, 1])))).map Obj.originsField =
      .ok (.arr ⟨[3], [fmt6f 0, fmt6f 0, fmt6f 0]⟩)
    ∧ (Cube.from_cube_file "r.cub" (Cube.save_lines
        (.cube (.str "c.cub") (.str "potential") (.arr ⟨[1, 1, 1], [0]⟩)
          (.axesDict [("x", [0]), ("y", [0]), ("z", [0])]) (.mol exMolQ)
          (.arr ⟨[3], [0, 0, 0]⟩) (.arr ⟨[3], [1, 1, 1]⟩)
          (.intArr [1, 1, 1])))).map Obj.unitVectorsField =
      .ok (.arr ⟨[3], [fmt6f 1, fmt6f 1, fmt6f 1]⟩)
    ∧ (Cube.from_cube_file "r.cub" (Cube.save_lines
        (.cube (.str "c.cub") (.str "potential") (.arr ⟨[1, 1, 1], [0]⟩)
          (.axesDict [("x", [0]), ("y", [0]), ("z", [0])]) (.mol exMolQ)
          (.arr ⟨[3], [0, 0, 0]⟩) (.arr ⟨[3], [1, 1, 1]⟩)
          (.intArr [1, 1, 1])))).map Obj.nVoxelsField =
      .ok (.intArr [1, 1, 1])
    ∧ (Cube.from_cube_file "r.cub" (Cube.save_lines
        (.cube (.str "c.cub") (.str "potential") (.arr ⟨[1, 1, 1], [0]⟩)
          (.axesDict [("x", [0]), ("y", [0]), ("z", [0])]) (.mol exMolQ)
          (.arr ⟨[3], [0, 0, 0]⟩) (.arr ⟨[3], [1, 1, 1]⟩)
          (.intArr [1, 1, 1])))).map Obj.valuesField =
      .ok (.arr ⟨[(1 : ℤ).toNat, (1 : ℤ).toNat, (1 : ℤ).toNat],
        [(0 : ℚ)].map fmtE⟩) :=
  claim_C6_roundtrip "c.cub" "r.cub" "potential" [0] [1, 1, 1]
    [("x", [0]), ("y", [0]), ("z", [0])] exMolQ 0 0 0 1 1 1 1 1 1
    (by norm_num [fmt6f, pyRound, round_eq])
    (by norm_num [fmt6f, pyRound, round_eq])
    (by norm_num [fmt6f, pyRound, round_eq])
    (by norm_num) (by norm_num) (by norm_num) (by norm_num)

end ChargeTools
